import Mathlib

/-
  Verification development for the clmm-rust concentrated-liquidity pool engine.

  Shallow embedding conventions, reflecting how the source is built and deployed:
  - U256 and I256 come from the uint crate (construct_uint), whose arithmetic
    operators panic unconditionally on overflow, underflow and division by zero.
    We model a panic as the error value RErr.panic.  I256 is construct_uint as
    well, hence an UNSIGNED 256-bit integer: comparisons against zero and
    subtraction behave unsigned, exactly as in the source.
  - Rust primitive integers (u32, u64, u128, i32) follow release-profile
    semantics: wrapping on overflow, panic on division by zero and on the
    overflowing division i32::MIN / -1.
  - Functions returning Result propagate CLMMError values (wrapped in
    ProgramError::Custom); panics propagate past unwrap_or and the Result type,
    which the embedding distinguishes via RErr.panic.
  - The source refers to CLMMError::InvalidOracle, which is absent from the
    error enum in error.rs; the embedding includes it as a constructor.
  - f64 computations (sqrt_price_x96_to_price displays, the expected-price
    quotient in calculate_price_impact, the coefficient of variation in
    calculate_volatility) cannot be modelled exactly; their numeric outcomes
    enter as explicit parameters (impactVal, volHigh, volLow) and every theorem
    quantifies over them.  Control flow that bypasses the float path (early
    returns on zero liquidity, zero output, or fewer than two price points) is
    embedded exactly.
-/

namespace CLMM

/-- Error outcomes of the embedded Rust code: the CLMMError variants from
error.rs, the InvalidOracle variant referenced by mev_protection.rs, and a
panic marker for aborts from overflowing uint-crate arithmetic or primitive
division by zero. -/
inductive RErr where
  | invalidInstruction
  | invalidAccount
  | mathOverflow
  | invalidTickRange
  | insufficientLiquidity
  | invalidPrice
  | unauthorized
  | invalidOracle
  | panic
deriving DecidableEq, Repr

/-- Result of an embedded Rust computation. -/
abbrev RRes (α : Type) : Type := Except RErr α

/-- Modulus of a 256-bit word. -/
def U256M : Nat := 2 ^ 256

/-- U256 addition: the uint crate panics on overflow. -/
def uadd (a b : Nat) : RRes Nat :=
  if a + b < U256M then .ok (a + b) else .error .panic

/-- U256 subtraction: the uint crate panics on underflow. -/
def usub (a b : Nat) : RRes Nat :=
  if b ≤ a then .ok (a - b) else .error .panic

/-- U256 multiplication: the uint crate panics on overflow. -/
def umul (a b : Nat) : RRes Nat :=
  if a * b < U256M then .ok (a * b) else .error .panic

/-- U256 division: the uint crate panics on division by zero. -/
def udiv (a b : Nat) : RRes Nat :=
  if b = 0 then .error .panic else .ok (a / b)

/-- U256 remainder: panics on zero modulus. -/
def umod (a b : Nat) : RRes Nat :=
  if b = 0 then .error .panic else .ok (a % b)

/-- u128 division, used by the limb arithmetic in FixedPointMath::mul_div:
panics on a zero divisor. -/
def div128 (a b : Nat) : RRes Nat :=
  if b = 0 then .error .panic else .ok (a / b)

/-- Reinterpret a u32 bit pattern as an i32 (the expression tick_spacing as i32
in the source). -/
def asI32 (n : Nat) : Int :=
  if n % 4294967296 < 2147483648 then ((n % 4294967296 : Nat) : Int)
  else ((n % 4294967296 : Nat) : Int) - 4294967296

/-- Wrap an integer into the i32 range, the release-mode overflow behaviour of
i32 addition, subtraction and multiplication. -/
def wrapI32 (x : Int) : Int :=
  (x + 2147483648).emod 4294967296 - 2147483648

/-- Rust i32 division: truncates toward zero; panics on division by zero and on
the overflowing case i32::MIN / -1 (a panic in every build profile). -/
def i32Div (a b : Int) : RRes Int :=
  if b = 0 then .error .panic
  else if a = -2147483648 ∧ b = -1 then .error .panic
  else .ok (a.tdiv b)

/-- Rust i32 remainder: same panic conditions as division. -/
def i32Mod (a b : Int) : RRes Int :=
  if b = 0 then .error .panic
  else if a = -2147483648 ∧ b = -1 then .error .panic
  else .ok (a.tmod b)

/-- Wrapping u32 subtraction (release semantics), for inputs below 2^32. -/
def wsub32 (a b : Nat) : Nat :=
  ((a % 4294967296) + 4294967296 - (b % 4294967296)) % 4294967296

/-- Two-complement bit pattern of an i32 value, as a natural number, for the
bitwise tick tests in get_sqrt_ratio_at_tick. -/
def tickBits (t : Int) : Nat :=
  (t.emod 4294967296).toNat

/-- MIN_TICK from tick_math.rs. -/
def MIN_TICK : Int := -887272

/-- MAX_TICK from tick_math.rs. -/
def MAX_TICK : Int := 887272

/-- The Q96 constant from tick_math.rs: U256([0, 0, 0, 1 <<< 32]).  The uint
crate construct_uint stores limbs little-endian (limb 0 least significant, the
same convention the limb shuffle in Tick::update_liquidity exhibits), so this
constant equals 2^32 * 2^192 = 2^224, not the 2^96 its name suggests. -/
def q96 : Nat := 2 ^ 224

/-- TickMath::get_sqrt_ratio_at_tick.  The running product starts below 2^128
and every factor is below 2^128, so each 256-bit product (ratio * factor) stays
below 2^256 and the uint multiplications cannot overflow; they are therefore
embedded as plain arithmetic.  The source computes abs_tick but never uses it;
the bit tests are performed on the i32 bit pattern of the tick itself. -/
def get_sqrt_ratio_at_tick (tick : Int) : RRes Nat :=
  if tick < MIN_TICK ∨ tick > MAX_TICK then .error .invalidTickRange
  else
    let b := tickBits tick
    let r0 : Nat :=
      if tick.emod 2 = 0 then 0xfffcb933bd6fad37aa2d162d1a594001
      else 0xfff97272373d413259a46990580e213a
    let r1 := if b &&& 0x2 ≠ 0 then (r0 * 0xfff2e50f5f656932ef12357cf3c7fdcc) >>> 128 else r0
    let r2 := if b &&& 0x4 ≠ 0 then (r1 * 0xffe5caca7e10e4e61c3624eaa0941cd0) >>> 128 else r1
    let r3 := if b &&& 0x8 ≠ 0 then (r2 * 0xffcb9843d60f6159c9db58835c926644) >>> 128 else r2
    let r4 := if b &&& 0x10 ≠ 0 then (r3 * 0xff973b41fa98c081472e6896dfb254c0) >>> 128 else r3
    let r5 := if b &&& 0x20 ≠ 0 then (r4 * 0xff2ea16466c96a3843ec78b326b52861) >>> 128 else r4
    let r6 := if b &&& 0x40 ≠ 0 then (r5 * 0xfe5dee046a99a2a811c461f1969c3053) >>> 128 else r5
    let r7 := if b &&& 0x80 ≠ 0 then (r6 * 0xfcbe86c7900a88aedcffc83b479aa3a4) >>> 128 else r6
    let r8 := if b &&& 0x100 ≠ 0 then (r7 * 0xf987a7253acae65be8623aa479a2ddf0) >>> 128 else r7
    let r9 := if b &&& 0x200 ≠ 0 then (r8 * 0xf3392b0822b70005940c7a398e4b70f3) >>> 128 else r8
    let r10 := if b &&& 0x400 ≠ 0 then (r9 * 0xe7159475a2c29be046d0ccceb0512d9) >>> 128 else r9
    let r11 := if b &&& 0x800 ≠ 0 then (r10 * 0xd097f3bdfd2022b8845ad8f792aa5825) >>> 128 else r10
    let r12 := if b &&& 0x1000 ≠ 0 then (r11 * 0xa9f746462d870fdf8a65dc1f90e061e5) >>> 128 else r11
    let r13 := if b &&& 0x2000 ≠ 0 then (r12 * 0x70d869a156d2a1b890bb3df62baf32f7) >>> 128 else r12
    let r14 := if b &&& 0x4000 ≠ 0 then (r13 * 0x31be135f97d08fd981231505542fcfa6) >>> 128 else r13
    let r15 := if b &&& 0x8000 ≠ 0 then (r14 * 0x9aa508b5b7a84e1c677de54f3e99bc9) >>> 128 else r14
    let r16 := if b &&& 0x10000 ≠ 0 then (r15 * 0x5d6af8dedb81196699c329225ee604) >>> 128 else r15
    let r17 := if b &&& 0x20000 ≠ 0 then (r16 * 0x2216e584f5fa1ea926041bedfe98) >>> 128 else r16
    let r18 := if b &&& 0x40000 ≠ 0 then (r17 * 0x48a170391f7dc42444e8fa2) >>> 128 else r17
    if tick > 0 then
      if r18 = 0 then .error .panic else .ok ((U256M - 1) / r18)
    else .ok r18

/-- Conversion from U256 to i32 with unwrap_or(0), as used on tick_low and
tick_high in get_tick_at_sqrt_ratio. -/
def toI32OrZero (n : Nat) : Int :=
  if n ≤ 2147483647 then (n : Int) else 0

/-- One step of the most-significant-bit binary search in
get_tick_at_sqrt_ratio: given the current (msb, r) pair, a threshold and a
shift amount, account for the bit and shift r down. -/
def msbStep (st : Nat × Nat) (threshold : Nat) (shift : Nat) : Nat × Nat :=
  let f := (if threshold < st.2 then 1 else 0) <<< shift
  (st.1 ||| f, st.2 >>> f)

/-- TickMath::get_tick_at_sqrt_ratio.  Every uint subtraction and
multiplication keeps its panic guard: in particular log_2 - 2^128 underflows
(log_2 is at most 191 * 2^64) and sqrt_price * sqrt_price overflows once the
price reaches 2^128, so the function aborts on every price inside its accepted
range. -/
def get_tick_at_sqrt_ratio (sqrt_price_x96 : Nat) : RRes Int :=
  if sqrt_price_x96 < 4295128739 ∨
     1461446703485210103287273052203988822378723970342 ≤ sqrt_price_x96 then
    .error .invalidPrice
  else do
    let st0 : Nat × Nat := (0, sqrt_price_x96)
    let st1 := msbStep st0 0xFFFFFFFFFFFFFFFFFFFFFFFF 7
    let st2 := msbStep st1 0xFFFFFFFFFFFFFFFF 6
    let st3 := msbStep st2 0xFFFFFFFF 5
    let st4 := msbStep st3 0xFFFF 4
    let st5 := msbStep st4 0xFF 3
    let st6 := msbStep st5 0xF 2
    let st7 := msbStep st6 0x3 1
    let msb := st7.1 ||| (if 0x1 < st7.2 then 1 else 0)
    let diff ← usub msb 64
    let log2v := (diff <<< 64) % U256M
    let sq ← umul sqrt_price_x96 sqrt_price_x96
    let r2a := sq >>> 128
    let r2b ← umul r2a sqrt_price_x96
    let _r2 := r2b >>> 128
    let tlo ← usub log2v (2 ^ 128)
    let thi ← uadd log2v (2 ^ 128)
    let tick_low := tlo >>> 128
    let tick_high := thi >>> 128
    if tick_low = tick_high then
      pure (toI32OrZero tick_low)
    else do
      let ratioLow ← get_sqrt_ratio_at_tick (toI32OrZero tick_low)
      if ratioLow ≤ sqrt_price_x96 then pure (toI32OrZero tick_low)
      else pure (toI32OrZero tick_high)

/-- Round trip of the two tick conversions, the composition claimed to be the
identity on [MIN_TICK, MAX_TICK]. -/
def tick_roundtrip (t : Int) : RRes Int := do
  let r ← get_sqrt_ratio_at_tick t
  get_tick_at_sqrt_ratio r

/-- TickMath::mul_div.  The limbs are extracted with low_u128() as u64, i.e.
reduced modulo 2^64; the intermediate products bd, bn, ad, an are computed and
discarded; the returned value is the wrapping u64 product of the low limbs
(the carry comparison of a u64 against U256::MAX.low_u128() never fires). -/
def tickmath_mul_div (a b denominator : Nat) : RRes Nat :=
  if denominator = 0 then .error .mathOverflow
  else
    let a_low := a % 2 ^ 64
    let b_low := b % 2 ^ 64
    let result := (a_low * b_low) % 2 ^ 64
    let carry : Nat := if 2 ^ 128 - 1 < result then 1 else 0
    .ok ((result + (carry <<< 64)) % 2 ^ 64)

/-- TickMath::mul_div_rounding_up: calls mul_div, then recomputes the full
256-bit product for the remainder test, which panics on overflow. -/
def tickmath_mul_div_rounding_up (a b denominator : Nat) : RRes Nat := do
  let result ← tickmath_mul_div a b denominator
  let prod ← umul a b
  let rem ← umod prod denominator
  if rem ≠ 0 then uadd result 1 else pure result

/-- TickMath::get_next_sqrt_price_from_amount0_rounding_up. -/
def get_next_sqrt_price_from_amount0_rounding_up
    (sqrt_px96 liquidity amount : Nat) (add : Bool) : RRes Nat :=
  if liquidity = 0 then .error .insufficientLiquidity
  else
    let numerator1 := (liquidity <<< 96) % U256M
    if add then do
      let q ← tickmath_mul_div_rounding_up amount q96 sqrt_px96
      if U256M ≤ liquidity + q then .error .mathOverflow
      else
        let liquidity_after := liquidity + q
        if liquidity_after = liquidity then .error .mathOverflow
        else tickmath_mul_div_rounding_up numerator1 sqrt_px96 liquidity_after
    else do
      let q ← tickmath_mul_div_rounding_up amount q96 sqrt_px96
      if liquidity < q then .error .insufficientLiquidity
      else
        let liquidity_after := liquidity - q
        let p ← umul numerator1 sqrt_px96
        udiv p liquidity_after

/-- TickMath::get_next_sqrt_price_from_amount1_rounding_down. -/
def get_next_sqrt_price_from_amount1_rounding_down
    (sqrt_px96 liquidity amount : Nat) (add : Bool) : RRes Nat :=
  if add then do
    let q ← udiv ((amount <<< 96) % U256M) sqrt_px96
    if U256M ≤ liquidity + q then .error .mathOverflow
    else do
      let p ← umul (liquidity + q) sqrt_px96
      pure (p / q96)
  else do
    let q ← udiv ((amount <<< 96) % U256M) sqrt_px96
    if liquidity < q then .error .insufficientLiquidity
    else do
      let p ← umul (liquidity - q) sqrt_px96
      pure (p / q96)

/-- FixedPointMath::mul_div from fixed_point.rs.  All limb arithmetic is u128:
multiplications wrap modulo 2^128 (release profile) and every division panics
on a zero divisor.  cross_term3 divides by the high 128 bits of the
denominator, which are zero whenever the denominator is below 2^128. -/
def fixed_mul_div (x y denominator : Nat) : RRes Nat :=
  if denominator = 0 then .error .mathOverflow
  else do
    let x_u128 := x % 2 ^ 128
    let y_u128 := y % 2 ^ 128
    let denominator_u128 := denominator % 2 ^ 128
    let result_low ← div128 ((x_u128 * y_u128) % 2 ^ 128) denominator_u128
    let x_high := x >>> 128
    let y_high := y >>> 128
    let denominator_high := denominator >>> 128
    let cross_term1 ← div128 ((x_u128 * y_high) % 2 ^ 128) denominator_u128
    let cross_term2 ← div128 ((x_high * y_u128) % 2 ^ 128) denominator_u128
    let cross_term3 ← div128 ((x_high * y_high) % 2 ^ 128) denominator_high
    let result_high := (cross_term1 + cross_term2 + cross_term3) % 2 ^ 128
    pure (result_low ||| (result_high <<< 128))

/-- FixedPointMath::mul_div_rounding_up. -/
def fixed_mul_div_rounding_up (x y denominator : Nat) : RRes Nat := do
  let result ← fixed_mul_div x y denominator
  let prod ← umul x y
  let rem ← umod prod denominator
  if rem ≠ 0 then uadd result 1 else pure result

/-- FixedPointMath::div_rounding_up: quotient plus one when a remainder is
left; panics on a zero divisor.  The increment cannot overflow because a
nonzero remainder forces the quotient strictly below 2^256 - 1. -/
def div_rounding_up (numerator denominator : Nat) : RRes Nat :=
  if denominator = 0 then .error .panic
  else .ok (numerator / denominator +
    if numerator % denominator = 0 then 0 else 1)

/-- FixedPointMath::get_amount0_delta. -/
def get_amount0_delta (sqrt_price_a sqrt_price_b liquidity : Nat)
    (round_up : Bool) : RRes Nat := do
  let s := min sqrt_price_a sqrt_price_b
  let e := max sqrt_price_a sqrt_price_b
  let numerator1 := (liquidity <<< 96) % U256M
  let numerator2 := e - s
  let p1 ← umul numerator1 numerator2
  let p2 ← umul e s
  let amount0 ← div_rounding_up p1 p2
  if round_up ∧ p1 % p2 ≠ 0 then uadd amount0 1 else pure amount0

/-- FixedPointMath::get_amount1_delta. -/
def get_amount1_delta (sqrt_price_a sqrt_price_b liquidity : Nat)
    (round_up : Bool) : RRes Nat := do
  let s := min sqrt_price_a sqrt_price_b
  let e := max sqrt_price_a sqrt_price_b
  let numerator ← umul liquidity (e - s)
  if round_up then div_rounding_up numerator q96 else pure (numerator / q96)

/-- Tick record from state/tick.rs.  liquidity_net has the I256 type of the
source, which construct_uint makes an unsigned 256-bit integer; it is stored
here as its raw unsigned value.  The reserved padding bytes are omitted. -/
structure Tick where
  tick : Int
  liquidity_gross : Nat
  liquidity_net : Nat
  fee_growth_outside0_x128 : Nat
  fee_growth_outside1_x128 : Nat
  tick_cumulative_outside : Nat
  seconds_per_liquidity_outside_x128 : Nat
  seconds_outside : Nat
  initialized : Bool
deriving DecidableEq, Repr

/-- Tick::new. -/
def Tick.fresh (t : Int) : Tick :=
  { tick := t, liquidity_gross := 0, liquidity_net := 0,
    fee_growth_outside0_x128 := 0, fee_growth_outside1_x128 := 0,
    tick_cumulative_outside := 0, seconds_per_liquidity_outside_x128 := 0,
    seconds_outside := 0, initialized := false }

/-- The byte shuffle Tick::update_liquidity performs to obtain abs_delta: each
64-bit limb is serialised big-endian at byte offset 8*i (limb 0 first) and the
buffer is reread big-endian, which moves limb i to weight 2^(192 - 64*i). -/
def limbShuffle (n : Nat) : Nat :=
  (n % 2 ^ 64) * 2 ^ 192 + ((n >>> 64) % 2 ^ 64) * 2 ^ 128 +
    ((n >>> 128) % 2 ^ 64) * 2 ^ 64 + ((n >>> 192) % 2 ^ 64)

/-- Tick::update_liquidity.  Because I256 is unsigned, the comparison
liquidity_delta < I256_ZERO is never true, so abs_delta is always the limb
shuffle of the delta itself; the upper branch adds the delta to liquidity_net
and the lower branch subtracts it, panicking on unsigned underflow. -/
def Tick.update_liquidity (t : Tick) (liquidity_delta : Nat) (upper : Bool) :
    RRes Tick := do
  let t0 := if ¬t.initialized then { t with initialized := true } else t
  let abs_delta := limbShuffle liquidity_delta
  if upper then do
    let net ← uadd t0.liquidity_net liquidity_delta
    let gross ← uadd t0.liquidity_gross abs_delta
    pure { t0 with liquidity_net := net, liquidity_gross := gross }
  else do
    let net ← usub t0.liquidity_net liquidity_delta
    let gross ← uadd t0.liquidity_gross abs_delta
    pure { t0 with liquidity_net := net, liquidity_gross := gross }

/-- Tick bitmap contents: byte index to byte value.  The array in the source
has 256 bytes; the bit queries below only ever touch indices 0 to 31. -/
def Bitmap : Type := Nat → Nat

/-- The all-zero bitmap. -/
def emptyBitmap : Bitmap := fun _ => 0

/-- TickBitmap::is_bit_set for a bit position below 256 (the u8 argument). -/
def is_bit_set (bm : Bitmap) (bit_position : Nat) : Bool :=
  bm (bit_position / 8) &&& (1 <<< (bit_position % 8)) ≠ 0

/-- Truncation of a loop counter to u8 (the compressed as u8 cast); the loop
only consults it while the counter is nonnegative. -/
def asU8 (c : Int) : Nat := (c.emod 256).toNat

/-- Downward scan of TickBitmap::next_initialized_tick (lte branch): decrement
until the counter passes below zero.  Structural fuel bounds the iteration
count; searchFuel steps always suffice for a counter in the i32 range. -/
def searchDown (bm : Bitmap) : Nat → Int → Option Int
  | 0, _ => none
  | fuel + 1, c =>
    if c < 0 then none
    else if is_bit_set bm (asU8 c) then some c
    else searchDown bm fuel (c - 1)

/-- Upward scan of TickBitmap::next_initialized_tick: increment with i32
wrapping (release semantics), so reaching i32::MAX rolls over to a negative
counter and the loop guard exits with None. -/
def searchUp (bm : Bitmap) : Nat → Int → Option Int
  | 0, _ => none
  | fuel + 1, c =>
    if c < 0 then none
    else if is_bit_set bm (asU8 c) then some c
    else searchUp bm fuel (wrapI32 (c + 1))

/-- Fuel covering every possible i32 scan: at most 2^32 + 1 loop iterations can
occur before the counter leaves the nonnegative range. -/
def searchFuel : Nat := 2 ^ 33

/-- TickBitmap::next_initialized_tick.  The initial division tick /
(tick_spacing as i32) panics when tick is i32::MIN and the reinterpreted
spacing is -1; the final multiplication by the spacing wraps as i32. -/
def next_initialized_tick (bm : Bitmap) (tick : Int) (tick_spacing : Nat)
    (lte : Bool) : RRes (Option Int) := do
  let sI := asI32 tick_spacing
  let c0 ← i32Div tick sI
  let compressed ←
    if lte then pure c0
    else do
      let m ← i32Mod tick sI
      if m ≠ 0 then pure (wrapI32 (c0 + 1)) else pure c0
  let found := if lte then searchDown bm searchFuel compressed
               else searchUp bm searchFuel compressed
  pure (found.map (fun c => wrapI32 (c * sI)))

/-- MEV protection configuration from mev_protection.rs. -/
structure MevConfig where
  oracle_window : Nat
  min_update_interval : Nat
  max_slippage_bps : Nat
  batch_auction_enabled : Bool
  batch_window : Nat
  oracle_enabled : Bool
deriving DecidableEq, Repr

/-- Oracle ring-buffer entry from mev_protection.rs. -/
structure OracleObservation where
  timestamp : Nat
  price : Nat
  tick : Int
  liquidity : Nat
deriving DecidableEq, Repr

/-- Market data point from dynamic_fee.rs. -/
structure MarketDataPoint where
  timestamp : Nat
  price : Nat
  volume : Nat
  price_impact : Nat
deriving DecidableEq, Repr

/-- Pool record from state/pool.rs.  The two token pubkeys are abstracted to
numeric identifiers and the reserved padding is omitted; every field the
engine reads or writes is present. -/
structure Pool where
  token_a : Nat
  token_b : Nat
  fee : Nat
  tick_spacing : Nat
  max_liquidity_per_tick : Nat
  sqrt_price_x96 : Nat
  tick : Int
  fee_growth_global0_x128 : Nat
  fee_growth_global1_x128 : Nat
  protocol_fees_token0 : Nat
  protocol_fees_token1 : Nat
  liquidity : Nat
  position_count : Nat
  last_update_timestamp : Nat
  unlocked : Bool
  base_fee : Nat
  min_fee : Nat
  max_fee : Nat
  last_fee_adjustment : Nat
  fee_adjustment_interval : Nat
  dynamic_fee_enabled : Bool
  last_oracle_update : Nat
  oracle_observation_count : Nat
  last_sequence_number : Nat
  last_position_update : Nat
  mev_config : MevConfig
deriving DecidableEq, Repr

/-- MevProtectionEngine::validate_transaction_ordering: the successor of the
last processed sequence number wraps at 2^64 (u64 release arithmetic). -/
def validate_transaction_ordering (sequence_number last_processed : Nat) :
    RRes Bool :=
  .ok (sequence_number = (last_processed + 1) % 2 ^ 64)

/-- Stable insertion of an observation into a timestamp-sorted list, placing it
after existing entries with the same or smaller key; folding this over a list
reproduces the stable ascending sort used by calculate_twap. -/
def insertByTs (o : OracleObservation) : List OracleObservation →
    List OracleObservation
  | [] => [o]
  | x :: xs =>
    if x.timestamp ≤ o.timestamp then x :: insertByTs o xs else o :: x :: xs

/-- Stable sort by timestamp (sort_by_key in the source is stable). -/
def sortByTs (l : List OracleObservation) : List OracleObservation :=
  l.foldl (fun acc x => insertByTs x acc) []

/-- Weight accumulation step of MevProtectionEngine::calculate_twap over one
adjacent pair of observations. -/
def twapStep (window_start current_time : Nat)
    (st : Nat × Nat × Nat × Nat) (o : OracleObservation) :
    RRes (Nat × Nat × Nat × Nat) := do
  let (prev_time, prev_price, total_sum, total_weight) := st
  let interval_start := max prev_time window_start
  let interval_end := min o.timestamp current_time
  if interval_start < interval_end then do
    let duration := interval_end - interval_start
    let sum2 ← uadd prev_price o.price
    let avg_price := sum2 / 2
    let term ← umul avg_price duration
    let total_sum2 ← uadd total_sum term
    let total_weight2 ← uadd total_weight duration
    pure (o.timestamp, o.price, total_sum2, total_weight2)
  else
    pure (o.timestamp, o.price, total_sum, total_weight)

/-- MevProtectionEngine::calculate_twap. -/
def calculate_twap (observations : List OracleObservation) (window : Nat) :
    RRes Nat := do
  if observations.length < 2 then .error .invalidOracle
  else
    let current_time :=
      (observations.getLastD ⟨0, 0, 0, 0⟩).timestamp
    let window_start := current_time - window
    let valid := observations.filter (fun o => window_start ≤ o.timestamp)
    match sortByTs valid with
    | [] => .error .invalidOracle
    | first :: rest => do
      let st ← rest.foldlM (twapStep window_start current_time)
        (first.timestamp, first.price, 0, 0)
      let total_weight := st.2.2.2
      if total_weight = 0 then .error .invalidOracle
      else pure (st.2.2.1 / total_weight)

/-- MevProtectionEngine::validate_twap_vs_spot. -/
def validate_twap_vs_spot (observations : List OracleObservation)
    (spot_price : Nat) (config : MevConfig) : RRes Bool := do
  if ¬config.oracle_enabled ∨ observations.length < 2 then pure true
  else do
    let twap ← calculate_twap observations config.oracle_window
    let price_diff := if spot_price < twap then twap - spot_price
                      else spot_price - twap
    let num ← umul price_diff 10000
    let deviation_bps ← udiv num twap
    pure (deviation_bps ≤ config.max_slippage_bps)

/-- MevProtectionEngine::validate_swap_mev_protection. -/
def validate_swap_mev_protection (pool : Pool) (_amount_in : Nat)
    (zero_for_one : Bool) (sqrt_price_limit : Nat)
    (oracle_observations : List OracleObservation) (config : MevConfig) :
    RRes Bool := do
  let ok1 ← validate_twap_vs_spot oracle_observations pool.sqrt_price_x96 config
  if ¬ok1 then pure false
  else do
    let twap ← calculate_twap oracle_observations config.oracle_window
    if zero_for_one then
      if sqrt_price_limit < twap then pure false else pure true
    else
      if twap < sqrt_price_limit then pure false else pure true

/-- MevProtectionEngine::update_oracle_observations: push the new observation,
then pop from the front while the buffer exceeds the capacity. -/
def update_oracle_observations (observations : List OracleObservation)
    (pool : Pool) (current_time : Nat) (max_observations : Nat) :
    List OracleObservation :=
  let l := observations ++
    [{ timestamp := current_time, price := pool.sqrt_price_x96,
       tick := pool.tick, liquidity := pool.liquidity }]
  l.drop (l.length - max_observations)

/-- DynamicFeeEngine::should_adjust_fee: u32 subtraction wraps in release
builds, so a current time before the last adjustment passes the check. -/
def should_adjust_fee (last_adjustment current_time : Nat) : Bool :=
  3600 ≤ wsub32 current_time last_adjustment

/-- Outcome of the two f64 threshold tests on the coefficient of variation in
DynamicFeeEngine::calculate_fee_adjustment.  With fewer than two price points
the source returns exactly 0.0, so the greater-than-5-percent test is false
and the less-than-1-percent test is true; otherwise the float outcome enters
through the parameters. -/
def volatilityOutcome (price_len : Nat) (volHigh volLow : Bool) : Bool × Bool :=
  if price_len < 2 then (false, true) else (volHigh, volLow)

/-- DynamicFeeEngine::calculate_average_volume: U256 sum (panicking on
overflow) divided by the length. -/
def calculate_average_volume (volume_history : List MarketDataPoint) :
    RRes Nat := do
  if volume_history.isEmpty then pure 0
  else do
    let sum ← volume_history.foldlM (fun acc p => uadd acc p.volume) 0
    udiv sum volume_history.length

/-- DynamicFeeEngine::calculate_average_price_impact: u32 sum with wrapping,
divided by the length cast to u32. -/
def calculate_average_price_impact (impact_history : List MarketDataPoint) :
    RRes Nat := do
  if impact_history.isEmpty then pure 0
  else
    let sum := impact_history.foldl
      (fun acc p => (acc + p.price_impact) % 2 ^ 32) 0
    let len32 := impact_history.length % 2 ^ 32
    if len32 = 0 then .error .panic else pure (sum / len32)

/-- DynamicFeeEngine::calculate_fee_adjustment.  The clamp uses the engine
constants MIN_FEE_BPS = 1 and MAX_FEE_BPS = 100; the pool min_fee and max_fee
fields are not consulted. -/
def calculate_fee_adjustment (volHigh volLow : Bool) (pool : Pool)
    (price_history volume_history impact_history : List MarketDataPoint) :
    RRes Nat := do
  let current_fee := pool.fee
  let (vh, vl) := volatilityOutcome price_history.length volHigh volLow
  let adj1 : Int := if vh then 20 else if vl then -10 else 0
  let avg_volume ← calculate_average_volume volume_history
  let adj2 : Int := adj1 +
    (if 1000000000000 < avg_volume then -15
     else if avg_volume < 10000000000 then 10 else 0)
  let avg_impact ← calculate_average_price_impact impact_history
  let adj3 : Int := adj2 +
    (if 500 < avg_impact then 25 else if avg_impact < 100 then -10 else 0)
  let new_fee_i32 := wrapI32 (asI32 current_fee + adj3)
  pure (min (max new_fee_i32 1) 100).toNat

/-- DynamicFeeEngine::update_pool_fee: recompute and install the fee; the
returned FeeAdjustment record (old fee, reason string, wall-clock timestamp)
is discarded by the only caller and is not modelled. -/
def update_pool_fee (volHigh volLow : Bool) (pool : Pool)
    (price_history volume_history impact_history : List MarketDataPoint) :
    RRes Pool := do
  let new_fee ← calculate_fee_adjustment volHigh volLow pool
    price_history volume_history impact_history
  pure { pool with fee := new_fee }

/-- Rolling-window push used by DynamicFeeEngine::add_market_data: append,
then drop the oldest entry once when the window size is exceeded. -/
def pushWindow (l : List MarketDataPoint) (x : MarketDataPoint) (w : Nat) :
    List MarketDataPoint :=
  let l2 := l ++ [x]
  if w < l2.length then l2.tail else l2

/-- DynamicFeeEngine::add_market_data over the three parallel windows of sizes
24, 24 and 12. -/
def add_market_data
    (price_history volume_history impact_history : List MarketDataPoint)
    (new_point : MarketDataPoint) :
    List MarketDataPoint × List MarketDataPoint × List MarketDataPoint :=
  (pushWindow price_history new_point 24,
   pushWindow volume_history new_point 24,
   pushWindow impact_history new_point 12)

/-- SwapEngine::update_dynamic_fees: skip when disabled or when the adjustment
interval has not elapsed; otherwise record the market data point, recompute the
pool fee and stamp last_fee_adjustment with the caller-supplied timestamp. -/
def update_dynamic_fees (volHigh volLow : Bool) (pool : Pool)
    (price_history volume_history impact_history : List MarketDataPoint)
    (current_timestamp : Nat) (current_price swap_volume price_impact : Nat) :
    RRes (Bool × Pool × List MarketDataPoint × List MarketDataPoint ×
      List MarketDataPoint) := do
  if ¬pool.dynamic_fee_enabled then
    pure (false, pool, price_history, volume_history, impact_history)
  else if ¬should_adjust_fee pool.last_fee_adjustment current_timestamp then
    pure (false, pool, price_history, volume_history, impact_history)
  else do
    let market_data : MarketDataPoint :=
      { timestamp := current_timestamp, price := current_price,
        volume := swap_volume, price_impact := price_impact }
    let (ph2, vh2, ih2) :=
      add_market_data price_history volume_history impact_history market_data
    let pool2 ← update_pool_fee volHigh volLow pool ph2 vh2 ih2
    pure (true, { pool2 with last_fee_adjustment := current_timestamp },
      ph2, vh2, ih2)

/-- SwapEngine::estimate_swap_output. -/
def estimate_swap_output (pool : Pool) (amount_in : Nat)
    (zero_for_one : Bool) : RRes Nat := do
  if pool.liquidity = 0 then pure 0
  else do
    let fm ← umul amount_in pool.fee
    let fee_amount := fm / 10000
    let amount_after_fee ← usub amount_in fee_amount
    if zero_for_one then do
      let sq ← umul pool.sqrt_price_x96 pool.sqrt_price_x96
      let price_ratio := sq / q96
      let num ← umul amount_after_fee q96
      udiv num price_ratio
    else do
      let sq ← umul pool.sqrt_price_x96 pool.sqrt_price_x96
      let price_ratio ← udiv (q96 * q96) sq
      let num ← umul amount_after_fee price_ratio
      pure (num / q96)

/-- SwapEngine::calculate_price_impact.  With zero liquidity or zero estimated
output the source returns 10000 before touching any float; on the remaining
path the f64 expected-price quotient is abstracted by the impactVal
parameter. -/
def calculate_price_impact (impactVal : Nat) (pool : Pool) (amount_in : Nat)
    (zero_for_one : Bool) : RRes Nat := do
  if pool.liquidity = 0 then pure 10000
  else do
    let amount_out ← estimate_swap_output pool amount_in zero_for_one
    if amount_out = 0 then pure 10000
    else pure impactVal

/-- SwapEngine::validate_price_limit, verbatim: for zero_for_one the limit
must be at or above the current price, otherwise at or below it. -/
def validate_price_limit (current_price limit_price : Nat)
    (zero_for_one : Bool) : Bool :=
  if zero_for_one then current_price ≤ limit_price
  else limit_price ≤ current_price

/-- SwapEngine::check_price_limit_hit. -/
def check_price_limit_hit (current_price limit_price : Nat)
    (zero_for_one : Bool) : Bool :=
  if zero_for_one then current_price ≤ limit_price
  else limit_price ≤ current_price

/-- SwapEngine::find_next_tick_down: one tick spacing below, no bitmap
consultation; i32 subtraction wraps in release builds. -/
def find_next_tick_down (tick_spacing : Nat) (current_tick : Int) :
    RRes (Int × Nat) := do
  let next_tick := wrapI32 (current_tick - asI32 tick_spacing)
  let next_sqrt_price ← get_sqrt_ratio_at_tick next_tick
  pure (next_tick, next_sqrt_price)

/-- SwapEngine::find_next_tick_up. -/
def find_next_tick_up (tick_spacing : Nat) (current_tick : Int) :
    RRes (Int × Nat) := do
  let next_tick := wrapI32 (current_tick + asI32 tick_spacing)
  let next_sqrt_price ← get_sqrt_ratio_at_tick next_tick
  pure (next_tick, next_sqrt_price)

/-- SwapEngine::calculate_max_amount_in_step. -/
def calculate_max_amount_in_step (current_sqrt_price next_sqrt_price
    liquidity : Nat) (zero_for_one : Bool) : RRes Nat :=
  if zero_for_one then
    get_amount0_delta current_sqrt_price next_sqrt_price liquidity false
  else
    get_amount1_delta current_sqrt_price next_sqrt_price liquidity false

/-- SwapEngine::calculate_new_sqrt_price. -/
def calculate_new_sqrt_price (current_sqrt_price liquidity amount_in : Nat)
    (zero_for_one : Bool) : RRes Nat :=
  if zero_for_one then
    get_next_sqrt_price_from_amount0_rounding_up current_sqrt_price liquidity
      amount_in true
  else
    get_next_sqrt_price_from_amount1_rounding_down current_sqrt_price liquidity
      amount_in false

/-- Result of one swap step. -/
structure SwapStepResult where
  amount_in : Nat
  amount_out : Nat
  sqrt_price_next : Nat
  tick_next : Int
  liquidity_next : Nat
deriving DecidableEq, Repr

/-- SwapEngine::swap_step.  The pool price is written before the tick lookup,
so a failing get_tick_at_sqrt_ratio leaves the price mutated; the pool is
threaded alongside the result to preserve that partial write. -/
def swap_step (pool : Pool) (amount_remaining : Nat) (zero_for_one : Bool) :
    (Except RErr SwapStepResult) × Pool :=
  let current_sqrt_price := pool.sqrt_price_x96
  let current_tick := pool.tick
  let current_liquidity := pool.liquidity
  match (if zero_for_one then find_next_tick_down pool.tick_spacing current_tick
         else find_next_tick_up pool.tick_spacing current_tick) with
  | .error e => (.error e, pool)
  | .ok (_next_tick, next_sqrt_price) =>
    match calculate_max_amount_in_step current_sqrt_price next_sqrt_price
        current_liquidity zero_for_one with
    | .error e => (.error e, pool)
    | .ok max_amount_in_step =>
      let amount_in_step := min amount_remaining max_amount_in_step
      if amount_in_step = 0 then
        (.ok { amount_in := 0, amount_out := 0,
               sqrt_price_next := current_sqrt_price,
               tick_next := current_tick,
               liquidity_next := current_liquidity }, pool)
      else
        match (if zero_for_one then
                 get_amount1_delta current_sqrt_price next_sqrt_price
                   current_liquidity false
               else
                 get_amount0_delta current_sqrt_price next_sqrt_price
                   current_liquidity false) with
        | .error e => (.error e, pool)
        | .ok amount_out_step =>
          match calculate_new_sqrt_price current_sqrt_price current_liquidity
              amount_in_step zero_for_one with
          | .error e => (.error e, pool)
          | .ok new_sqrt_price =>
            let pool1 := { pool with sqrt_price_x96 := new_sqrt_price }
            match get_tick_at_sqrt_ratio new_sqrt_price with
            | .error e => (.error e, pool1)
            | .ok new_tick =>
              (.ok { amount_in := amount_in_step,
                     amount_out := amount_out_step,
                     sqrt_price_next := new_sqrt_price,
                     tick_next := new_tick,
                     liquidity_next := current_liquidity },
               { pool1 with tick := new_tick })

/-- The while loop of SwapEngine::execute_swap.  Structural fuel equal to the
requested input amount always suffices: every iteration that recurses has
consumed at least one input unit, and the accumulated input never exceeds the
request, so the loop condition fails before the fuel does. -/
def swap_loop (zero_for_one : Bool) (sqrt_price_limit amount_in : Nat) :
    Nat → Pool → Nat → Nat → (Except RErr (Nat × Nat)) × Pool
  | 0, pool, amount_in_used, amount_out => (.ok (amount_in_used, amount_out), pool)
  | fuel + 1, pool, amount_in_used, amount_out =>
    if amount_in_used < amount_in then
      let remaining_amount := amount_in - amount_in_used
      match swap_step pool remaining_amount zero_for_one with
      | (.error e, p) => (.error e, p)
      | (.ok step, p) =>
        let used2 := amount_in_used + step.amount_in
        match uadd amount_out step.amount_out with
        | .error e => (.error e, p)
        | .ok out2 =>
          if check_price_limit_hit p.sqrt_price_x96 sqrt_price_limit
              zero_for_one then
            (.ok (used2, out2), p)
          else if step.amount_in = 0 then
            (.ok (used2, out2), p)
          else
            swap_loop zero_for_one sqrt_price_limit amount_in fuel p used2 out2
    else (.ok (amount_in_used, amount_out), pool)

/-- SwapEngine::update_pool_after_swap.  The fee growth accumulators are
scaled by the Q96 constant (whose actual value is 2^224), and the timestamp
is taken from the ambient wall clock (chrono Utc now), supplied here as the
wallClock parameter. -/
def update_pool_after_swap (wallClock : Nat) (pool : Pool)
    (amount_in amount_out : Nat) (zero_for_one : Bool) : RRes Pool := do
  let fm ← umul amount_in pool.fee
  let fee_amount := fm / 10000
  let _amount_after_fee ← usub amount_in fee_amount
  if zero_for_one then do
    let fg ← umul fee_amount q96
    let fee_growth ← udiv fg pool.liquidity
    let g0 ← uadd pool.fee_growth_global0_x128 fee_growth
    pure { pool with fee_growth_global0_x128 := g0,
                     last_update_timestamp := wallClock }
  else do
    let fg ← umul fee_amount q96
    let fee_growth ← udiv fg pool.liquidity
    let g1 ← uadd pool.fee_growth_global1_x128 fee_growth
    pure { pool with fee_growth_global1_x128 := g1,
                     last_update_timestamp := wallClock }

/-- SwapResult from swap.rs. -/
structure SwapResult where
  amount_in : Nat
  amount_out : Nat
  price_impact : Nat
  final_sqrt_price : Nat
  final_tick : Int
  fee_adjusted : Bool
  current_fee : Nat
  mev_protected : Bool
  twap_price : Nat
deriving DecidableEq, Repr

deriving instance DecidableEq for Except

/-- Full output state of an execute_swap call: the returned result plus the
final contents of every buffer passed by mutable reference. -/
structure SwapOut where
  result : Except RErr SwapResult
  pool : Pool
  price_history : List MarketDataPoint
  volume_history : List MarketDataPoint
  impact_history : List MarketDataPoint
  oracle_observations : List OracleObservation
deriving DecidableEq, Repr

/-- SwapEngine::execute_swap.  The impactVal, volHigh and volLow parameters
carry the outcomes of the f64 computations (deterministic functions of the
same data in the source), and wallClock is the ambient chrono clock read
inside update_pool_after_swap.  The recipient pubkey is unused by the source
body and omitted.  On the twap unwrap_or at the end, only a genuine error
value is replaced by the spot price; a panic inside calculate_twap would
propagate and is threaded accordingly. -/
def execute_swap (impactVal : Nat) (volHigh volLow : Bool) (wallClock : Nat)
    (pool : Pool) (amount_in : Nat) (zero_for_one : Bool)
    (sqrt_price_limit : Nat)
    (price_history volume_history impact_history : List MarketDataPoint)
    (oracle_observations : List OracleObservation)
    (current_timestamp sequence_number : Nat) : SwapOut :=
  let stay : Except RErr SwapResult → SwapOut := fun r =>
    { result := r, pool := pool, price_history := price_history,
      volume_history := volume_history, impact_history := impact_history,
      oracle_observations := oracle_observations }
  if ¬pool.unlocked then stay (.error .unauthorized)
  else
    match calculate_price_impact impactVal pool amount_in zero_for_one with
    | .error e => stay (.error e)
    | .ok price_impact =>
      if ¬validate_price_limit pool.sqrt_price_x96 sqrt_price_limit
          zero_for_one then stay (.error .invalidPrice)
      else
        match validate_transaction_ordering sequence_number
            pool.last_sequence_number with
        | .error e => stay (.error e)
        | .ok ordered =>
          if ¬ordered then stay (.error .invalidInstruction)
          else
            match validate_swap_mev_protection pool amount_in zero_for_one
                sqrt_price_limit oracle_observations pool.mev_config with
            | .error e => stay (.error e)
            | .ok mev_ok =>
              if ¬mev_ok then stay (.error .invalidPrice)
              else
                match update_dynamic_fees volHigh volLow pool price_history
                    volume_history impact_history current_timestamp
                    pool.sqrt_price_x96 amount_in price_impact with
                | .error e => stay (.error e)
                | .ok (fee_adjusted, pool1, ph1, vh1, ih1) =>
                  match swap_loop zero_for_one sqrt_price_limit amount_in
                      amount_in pool1 0 0 with
                  | (.error e, p) =>
                    { result := .error e, pool := p, price_history := ph1,
                      volume_history := vh1, impact_history := ih1,
                      oracle_observations := oracle_observations }
                  | (.ok (amount_in_used, amount_out), pool2) =>
                    match update_pool_after_swap wallClock pool2
                        amount_in_used amount_out zero_for_one with
                    | .error e =>
                      { result := .error e, pool := pool2,
                        price_history := ph1, volume_history := vh1,
                        impact_history := ih1,
                        oracle_observations := oracle_observations }
                    | .ok pool3 =>
                      let pool4 :=
                        { pool3 with last_sequence_number := sequence_number }
                      let obs2 := update_oracle_observations
                        oracle_observations pool4 current_timestamp 100
                      let finish : Nat → SwapOut := fun twap_price =>
                        { result := .ok
                            { amount_in := amount_in_used,
                              amount_out := amount_out,
                              price_impact := price_impact,
                              final_sqrt_price := pool4.sqrt_price_x96,
                              final_tick := pool4.tick,
                              fee_adjusted := fee_adjusted,
                              current_fee := pool4.fee,
                              mev_protected := true,
                              twap_price := twap_price },
                          pool := pool4, price_history := ph1,
                          volume_history := vh1, impact_history := ih1,
                          oracle_observations := obs2 }
                      match calculate_twap obs2 pool4.mev_config.oracle_window with
                      | .error .panic =>
                        { result := .error .panic, pool := pool4,
                          price_history := ph1, volume_history := vh1,
                          impact_history := ih1, oracle_observations := obs2 }
                      | .error _ => finish pool4.sqrt_price_x96
                      | .ok twap => finish twap

/-- Concrete tick with nonzero net liquidity, used to exhibit the sign
convention of Tick::update_liquidity away from the underflow case. -/
def tickNet5 : Tick :=
  { Tick.fresh 100 with liquidity_net := 5, initialized := true }

/-- C1.  For x = 100, y = 200, d = 1000 (the repository inline test
test_mul_div, which expects 20): FixedPointMath::mul_div panics with a u128
division by zero in cross_term3 (the high denominator limb is zero), and
TickMath::mul_div returns 20000, the wrapping u64 product of the low limbs,
ignoring the denominator.  Both therefore fail the claimed identity
mul_div(x, y, d) = floor(x * y / d) = 20; the d = 0 clause (MathOverflow)
does hold in both versions. -/
theorem c1_mul_div_code_bug :
    fixed_mul_div 100 200 1000 = .error .panic ∧
    tickmath_mul_div 100 200 1000 = .ok 20000 ∧
    100 * 200 / 1000 = 20 ∧ (20000 : Nat) ≠ 20 ∧
    fixed_mul_div 100 200 0 = .error .mathOverflow ∧
    tickmath_mul_div 100 200 0 = .error .mathOverflow := by decide

/-- C2.  At tick 0 (inside [MIN_TICK, MAX_TICK]) the forward map yields the
even-tick base constant, which lies inside the accepted price range of
get_tick_at_sqrt_ratio; the inverse map then underflows the U256 subtraction
log_2 - 2^128 (log_2 = 63 * 2^64 there) and panics, so the round trip aborts
instead of returning 0. -/
theorem c2_roundtrip_code_bug :
    tick_roundtrip 0 = .error .panic ∧
    get_sqrt_ratio_at_tick 0 = .ok 0xfffcb933bd6fad37aa2d162d1a594001 ∧
    4295128739 ≤ 0xfffcb933bd6fad37aa2d162d1a594001 ∧
    (0xfffcb933bd6fad37aa2d162d1a594001 : Nat) <
      1461446703485210103287273052203988822378723970342 ∧
    MIN_TICK ≤ 0 ∧ (0 : Int) ≤ MAX_TICK := by decide

/-- C4.  Tick::update_liquidity has the endpoint signs reversed relative to
the claim: on a fresh tick a mint delta of 1000 at the lower endpoint
(upper = false) is SUBTRACTED from liquidity_net, underflowing the unsigned
I256 and panicking (this is exactly the call add_liquidity makes for the
lower tick), while at the upper endpoint (upper = true) a delta of 3 is ADDED
to a net of 5, giving 8 where the claim requires 5 - 3 = 2. -/
theorem c4_liquidity_net_code_bug :
    Tick.update_liquidity (Tick.fresh 100) 1000 false = .error .panic ∧
    (Tick.update_liquidity tickNet5 3 true).map
      (fun t => t.liquidity_net) = .ok 8 ∧ (8 : Nat) ≠ 5 - 3 := by decide

/-- C5.  On a mint of 1000 the tick gross liquidity grows by the limb-shuffled
value 1000 * 2^192, not by 1000 (the repository test test_tick_liquidity_update
asserts 1000); and the negation 0 - delta that remove_liquidity uses to build
a burn delta underflows the unsigned I256 and panics, so no burn can decrease
liquidity_gross. -/
theorem c5_liquidity_gross_code_bug :
    (Tick.update_liquidity (Tick.fresh 100) 1000 true).map
      (fun t => t.liquidity_gross) = .ok (1000 * 2 ^ 192) ∧
    (1000 * 2 ^ 192 : Nat) ≠ 1000 ∧
    usub 0 1000 = .error .panic := by decide

/-- Default MEV configuration (MevProtectionEngine::default_config). -/
def defaultMevConfig : MevConfig :=
  { oracle_window := 300, min_update_interval := 60, max_slippage_bps := 1000,
    batch_auction_enabled := true, batch_window := 30, oracle_enabled := true }

/-- Concrete unlocked pool at sqrt price 2^96 with no active liquidity, used
to drive execute_swap through its integer-only validation prefix. -/
def c3pool : Pool :=
  { token_a := 1, token_b := 2, fee := 30, tick_spacing := 60,
    max_liquidity_per_tick := 0, sqrt_price_x96 := 2 ^ 96, tick := 0,
    fee_growth_global0_x128 := 0, fee_growth_global1_x128 := 0,
    protocol_fees_token0 := 0, protocol_fees_token1 := 0, liquidity := 0,
    position_count := 0, last_update_timestamp := 0, unlocked := true,
    base_fee := 30, min_fee := 1, max_fee := 100, last_fee_adjustment := 0,
    fee_adjustment_interval := 3600, dynamic_fee_enabled := true,
    last_oracle_update := 0, oracle_observation_count := 0,
    last_sequence_number := 0, last_position_update := 0,
    mev_config := defaultMevConfig }

/-- C3.  SwapEngine::validate_price_limit has the comparison reversed with
respect to the claim: for a zero_for_one swap it accepts exactly the limits at
or ABOVE the current price.  A limit of 2^95 with current price 2^96 (strictly
between the claimed MIN_SQRT_PRICE bound 4295128739 and the current price, so
valid per the claim) is rejected, and the whole swap fails fast with
InvalidPrice, leaving every buffer untouched; a limit of 2^97 at or above the
current price (which the claim requires to be rejected) passes the check.
The accepted region also contradicts check_price_limit_hit, which reports the
limit as already hit at the start of any accepted zero_for_one swap. -/
theorem c3_price_limit_code_bug :
    validate_price_limit (2 ^ 96) (2 ^ 95) true = false ∧
    validate_price_limit (2 ^ 96) (2 ^ 97) true = true ∧
    check_price_limit_hit (2 ^ 96) (2 ^ 97) true = true ∧
    (4295128739 : Nat) < 2 ^ 95 ∧ (2 ^ 95 : Nat) < 2 ^ 96 ∧
    execute_swap 0 false false 0 c3pool 1 true (2 ^ 95) [] [] [] [] 100 1 =
      { result := .error .invalidPrice, pool := c3pool, price_history := [],
        volume_history := [], impact_history := [],
        oracle_observations := [] } := by decide

/-- Pool with unit liquidity and a 100 percent fee tier, used to read off the
fee-growth increment of update_pool_after_swap exactly. -/
def c6pool : Pool :=
  { c3pool with fee := 10000, liquidity := 1 }

/-- C6 counterexample.  A swap that consumed amount_in = 1 at fee 10000 bps
charges fee_amount = 1 against liquidity 1; the accumulator for token0 grows
by 1 * 2^224 / 1 = 2^224, not by the claimed 1 * 2^128 / 1 = 2^128: the code
multiplies the fee by its Q96 constant, whose little-endian limb value is
2^224, not 2^128 (and not 2^96 either). -/
theorem c6_fee_growth_counterexample :
    (update_pool_after_swap 0 c6pool 1 0 true).map
      (fun p => p.fee_growth_global0_x128) = .ok (2 ^ 224) ∧
    (2 ^ 224 : Nat) ≠ 1 * 2 ^ 128 / 1 := by decide

/-- C6 amended.  Whenever update_pool_after_swap commits (nonzero liquidity
and no 256-bit overflow along the way), the fee-growth accumulator of the
input token grows by exactly floor(floor(amount_in * fee / 10000) * 2^224 / L)
- the whole-swap fee amount scaled by the source's Q96 constant, whose
little-endian limb value is 2^224, so neither the claimed Q128.128 scaling
nor the Q64.96 scaling its name suggests - and the opposite accumulator is
unchanged; the pool timestamp is overwritten with the ambient clock value. -/
theorem c6_fee_growth_scale_amended :
    ∀ (w : Nat) (pool : Pool) (amount_in amount_out : Nat)
      (zero_for_one : Bool),
    pool.liquidity ≠ 0 →
    pool.fee ≤ 10000 →
    amount_in * pool.fee < U256M →
    amount_in * pool.fee / 10000 * q96 < U256M →
    (if zero_for_one then pool.fee_growth_global0_x128
     else pool.fee_growth_global1_x128) +
      amount_in * pool.fee / 10000 * q96 / pool.liquidity < U256M →
    update_pool_after_swap w pool amount_in amount_out zero_for_one =
      .ok { pool with
        fee_growth_global0_x128 := pool.fee_growth_global0_x128 +
          (if zero_for_one then
            amount_in * pool.fee / 10000 * q96 / pool.liquidity else 0),
        fee_growth_global1_x128 := pool.fee_growth_global1_x128 +
          (if zero_for_one then 0 else
            amount_in * pool.fee / 10000 * q96 / pool.liquidity),
        last_update_timestamp := w } := by
  intro w pool aIn aOut zfo hL hf h1 h2 h3
  have hfa : aIn * pool.fee / 10000 ≤ aIn := by
    calc aIn * pool.fee / 10000 ≤ aIn * 10000 / 10000 :=
          Nat.div_le_div_right (Nat.mul_le_mul_left _ hf)
      _ = aIn := Nat.mul_div_cancel aIn (by norm_num)
  cases zfo with
  | true =>
    simp only [if_pos] at h3
    simp only [update_pool_after_swap, umul, usub, udiv, uadd, bind,
      Except.bind, pure, Except.pure, if_pos h1, if_pos hfa, if_neg hL,
      if_pos h2, if_pos h3, if_true]
    simp
  | false =>
    simp only [Bool.false_eq_true, if_false] at h3
    simp only [update_pool_after_swap, umul, usub, udiv, uadd, bind,
      Except.bind, pure, Except.pure, if_pos h1, if_pos hfa, if_neg hL,
      if_pos h2, if_pos h3, Bool.false_eq_true, if_false]
    simp

/-- C6 amended, witnessed at the concrete pool of the counterexample: the
token0 accumulator lands on exactly 0 + 1 * 2^224 and the timestamp on the
clock value 3. -/
theorem c6_fee_growth_scale_amended_witness :
    c6pool.liquidity ≠ 0 ∧ c6pool.fee ≤ 10000 ∧
    1 * c6pool.fee < U256M ∧
    1 * c6pool.fee / 10000 * q96 < U256M ∧
    (if true then c6pool.fee_growth_global0_x128
     else c6pool.fee_growth_global1_x128) +
      1 * c6pool.fee / 10000 * q96 / c6pool.liquidity < U256M ∧
    update_pool_after_swap 3 c6pool 1 0 true =
      .ok { c6pool with
        fee_growth_global0_x128 := c6pool.fee_growth_global0_x128 +
          (if true then 1 * c6pool.fee / 10000 * q96 / c6pool.liquidity
           else 0),
        fee_growth_global1_x128 := c6pool.fee_growth_global1_x128 +
          (if true then 0 else
            1 * c6pool.fee / 10000 * q96 / c6pool.liquidity),
        last_update_timestamp := 3 } :=
  ⟨by decide, by decide, by decide, by decide, by decide,
   c6_fee_growth_scale_amended 3 c6pool 1 0 true (by decide) (by decide)
     (by decide) (by decide) (by decide)⟩

/-- C7 counterexample.  With the pool locked, a swap whose sequence number 5
differs from last_sequence_number + 1 = 1 fails with Unauthorized, not with
the claimed InvalidInstruction: the claim does not hold for every pool
state. -/
theorem c7_counterexample :
    execute_swap 0 false false 0 { c3pool with unlocked := false } 1 true
      (2 ^ 97) [] [] [] [] 100 5 =
      { result := .error .unauthorized,
        pool := { c3pool with unlocked := false }, price_history := [],
        volume_history := [], impact_history := [],
        oracle_observations := [] } ∧
    (5 : Nat) ≠
      ({ c3pool with unlocked := false }.last_sequence_number + 1) % 2 ^ 64 ∧
    (Except.error RErr.unauthorized : Except RErr SwapResult) ≠
      .error .invalidInstruction := by decide

/-- C7 amended.  Provided the swap reaches the ordering gate, i.e. the pool is
unlocked, the price-impact computation returns a value, and the (reversed)
price-limit check passes, a sequence number different from
last_sequence_number + 1 (u64-wrapping successor) makes execute_swap fail with
InvalidInstruction and leaves the pool and all four buffers unchanged. -/
theorem c7_sequence_gate_amended :
    ∀ (iv : Nat) (vh vl : Bool) (w : Nat) (pool : Pool) (aIn : Nat)
      (zfo : Bool) (lim : Nat) (ph vhist ih : List MarketDataPoint)
      (obs : List OracleObservation) (ts seq v : Nat),
    pool.unlocked = true →
    calculate_price_impact iv pool aIn zfo = .ok v →
    validate_price_limit pool.sqrt_price_x96 lim zfo = true →
    seq ≠ (pool.last_sequence_number + 1) % 2 ^ 64 →
    execute_swap iv vh vl w pool aIn zfo lim ph vhist ih obs ts seq =
      { result := .error .invalidInstruction, pool := pool,
        price_history := ph, volume_history := vhist, impact_history := ih,
        oracle_observations := obs } := by
  intro iv vh vl w pool aIn zfo lim ph vhist ih obs ts seq v hu hcpi hvpl hseq
  simp [execute_swap, hu, hcpi, hvpl, validate_transaction_ordering, hseq]
  intro h
  exact absurd h hseq

/-- C7 amended, witnessed on the zero-liquidity pool c3pool with sequence
number 7 against expected 1. -/
theorem c7_sequence_gate_amended_witness :
    c3pool.unlocked = true ∧
    calculate_price_impact 0 c3pool 1 true = .ok 10000 ∧
    validate_price_limit c3pool.sqrt_price_x96 (2 ^ 96) true = true ∧
    (7 : Nat) ≠ (c3pool.last_sequence_number + 1) % 2 ^ 64 ∧
    execute_swap 0 false false 0 c3pool 1 true (2 ^ 96) [] [] [] [] 100 7 =
      { result := .error .invalidInstruction, pool := c3pool,
        price_history := [], volume_history := [], impact_history := [],
        oracle_observations := [] } :=
  ⟨rfl, by decide, by decide, by decide,
   c7_sequence_gate_amended 0 false false 0 c3pool 1 true (2 ^ 96) [] [] []
     [] 100 7 10000 rfl (by decide) (by decide) (by decide)⟩

/-- A u32 value below 2^31 reinterprets to itself as an i32. -/
theorem asI32_small (n : Nat) (h : n < 2 ^ 31) : asI32 n = n := by
  unfold asI32
  rw [Nat.mod_eq_of_lt (by omega)]
  rw [if_pos (by exact_mod_cast h)]

/-- Wrapping to i32 is the identity inside the i32 range. -/
theorem wrapI32_self (x : Int) (h1 : -(2 ^ 31) ≤ x) (h2 : x < 2 ^ 31) :
    wrapI32 x = x := by
  show (x + 2147483648) % 4294967296 - 2147483648 = x
  omega

/-- Pool whose configured fee bounds differ from the engine constants. -/
def c8pool : Pool := { c3pool with fee := 15, min_fee := 10 }

/-- C8 counterexample.  On a pool with configured min_fee = 10 and current fee
15, an adjustment round with empty histories applies -10 + 10 - 10 = -10 and
clamps against the engine constants [1, 100], installing fee 5 - strictly
below the pool configured minimum, contradicting the claim that the new fee
never leaves [pool.min_fee, pool.max_fee]. -/
theorem c8_pool_bounds_counterexample :
    calculate_fee_adjustment true false c8pool [] [] [] = .ok 5 ∧
    update_pool_fee true false c8pool [] [] [] =
      .ok { c8pool with fee := 5 } ∧
    5 < c8pool.min_fee := by decide

/-- C8 amended.  Whenever the averages compute, the recomputed fee is the
current fee plus the sum of the volatility, volume and price-impact
adjustments, clamped to the DynamicFeeEngine constants MIN_FEE_BPS = 1 and
MAX_FEE_BPS = 100 (the pool min_fee and max_fee fields are ignored); in
particular the result always lies in [1, 100]. -/
theorem c8_fee_clamp_amended :
    ∀ (vh vl : Bool) (pool : Pool) (ph vols imps : List MarketDataPoint)
      (av ai : Nat),
    pool.fee ≤ 10000 →
    calculate_average_volume vols = .ok av →
    calculate_average_price_impact imps = .ok ai →
    calculate_fee_adjustment vh vl pool ph vols imps =
      .ok (min (max ((pool.fee : Int) +
        ((if (volatilityOutcome ph.length vh vl).1 then 20
          else if (volatilityOutcome ph.length vh vl).2 then -10 else 0) +
         (if 1000000000000 < av then -15
          else if av < 10000000000 then 10 else 0) +
         (if 500 < ai then 25 else if ai < 100 then -10 else 0))) 1)
        100).toNat ∧
    (∀ r : Nat, calculate_fee_adjustment vh vl pool ph vols imps = .ok r →
      1 ≤ r ∧ r ≤ 100) := by
  intro vh vl pool ph vols imps av ai hfee hav hai
  have key : calculate_fee_adjustment vh vl pool ph vols imps =
      .ok (min (max ((pool.fee : Int) +
        ((if (volatilityOutcome ph.length vh vl).1 then 20
          else if (volatilityOutcome ph.length vh vl).2 then -10 else 0) +
         (if 1000000000000 < av then -15
          else if av < 10000000000 then 10 else 0) +
         (if 500 < ai then 25 else if ai < 100 then -10 else 0))) 1)
        100).toNat := by
    simp only [calculate_fee_adjustment, bind, Except.bind, hav, hai, pure,
      Except.pure]
    rcases hvo : volatilityOutcome ph.length vh vl with ⟨b1, b2⟩
    simp only [hvo]
    have hb : (-35 : Int) ≤
        ((if b1 then 20 else if b2 then -10 else 0) +
         (if 1000000000000 < av then -15
          else if av < 10000000000 then 10 else 0) +
         (if 500 < ai then 25 else if ai < 100 then -10 else 0)) ∧
        ((if b1 then (20 : Int) else if b2 then -10 else 0) +
         (if 1000000000000 < av then -15
          else if av < 10000000000 then 10 else 0) +
         (if 500 < ai then 25 else if ai < 100 then -10 else 0)) ≤ 55 := by
      constructor <;> (split_ifs <;> norm_num)
    rw [asI32_small pool.fee (by omega)]
    rw [wrapI32_self _ (by omega) (by push_cast; omega)]
  refine ⟨key, ?_⟩
  intro r hr
  rw [key] at hr
  have := Except.ok.inj hr
  omega

/-- C8 amended, witnessed on c8pool with empty histories: the fee lands on
the clamped value and inside [1, 100]. -/
theorem c8_fee_clamp_amended_witness :
    c8pool.fee ≤ 10000 ∧
    calculate_average_volume [] = .ok 0 ∧
    calculate_average_price_impact [] = .ok 0 ∧
    (calculate_fee_adjustment true false c8pool [] [] [] =
      .ok (min (max ((c8pool.fee : Int) +
        ((if (volatilityOutcome ([] : List MarketDataPoint).length true
              false).1 then 20
          else if (volatilityOutcome ([] : List MarketDataPoint).length true
              false).2 then -10 else 0) +
         (if 1000000000000 < (0 : Nat) then -15
          else if (0 : Nat) < 10000000000 then 10 else 0) +
         (if 500 < (0 : Nat) then 25
          else if (0 : Nat) < 100 then -10 else 0))) 1) 100).toNat ∧
     (∀ r : Nat, calculate_fee_adjustment true false c8pool [] [] [] = .ok r →
        1 ≤ r ∧ r ≤ 100)) :=
  ⟨by decide, by decide, by decide,
   c8_fee_clamp_amended true false c8pool [] [] [] 0 0 (by decide)
     (by decide) (by decide)⟩


/-- Upward bitmap scan over an all-zero bitmap finds nothing at any fuel. -/
theorem searchUp_none_of_empty (bm : Bitmap) (hbm : ∀ i, bm i = 0) :
    ∀ (fuel : Nat) (c : Int), searchUp bm fuel c = none := by
  intro fuel
  induction fuel with
  | zero => intro c; rfl
  | succ n ih =>
    intro c
    simp only [searchUp, is_bit_set, hbm]
    split <;> simp [ih]

/-- C9 counterexample.  At starting tick i32::MIN with tick_spacing
u32::MAX (whose i32 reinterpretation is -1), the division tick /
(tick_spacing as i32) overflows and panics, in both search directions, so
next_initialized_tick does not return on every input with positive
spacing. -/
theorem c9_div_overflow_counterexample :
    next_initialized_tick emptyBitmap (-2147483648) 4294967295 false =
      .error .panic ∧
    next_initialized_tick emptyBitmap (-2147483648) 4294967295 true =
      .error .panic ∧
    (0 : Nat) < 4294967295 := by decide

/-- C9 amended.  For every bitmap, i32 starting tick and positive u32
spacing EXCEPT the overflowing pair (tick = i32::MIN, spacing = u32::MAX),
next_initialized_tick terminates normally with Some tick or None (under
release-profile i32 wrapping, the upward scan that reaches i32::MAX rolls
over to a negative counter and exits); in particular the upward search over
an all-zero bitmap returns None. -/
theorem c9_termination_amended :
    ∀ (bm : Bitmap) (t : Int) (s : Nat) (lte : Bool),
    0 < s → s < 2 ^ 32 → -(2 ^ 31) ≤ t → t < 2 ^ 31 →
    ¬(t = -(2 ^ 31) ∧ s = 2 ^ 32 - 1) →
    (∃ v, next_initialized_tick bm t s lte = .ok v) ∧
    ((∀ i, bm i = 0) → lte = false →
      next_initialized_tick bm t s lte = .ok none) := by
  intro bm t s lte hs1 hs2 ht1 ht2 hex
  have hsval : asI32 s = if s % 4294967296 < 2147483648 then
      ((s % 4294967296 : Nat) : Int)
    else ((s % 4294967296 : Nat) : Int) - 4294967296 := rfl
  rw [Nat.mod_eq_of_lt (by omega)] at hsval
  have hsne : asI32 s ≠ 0 := by
    rw [hsval]; split <;> omega
  have hne1 : ¬(t = -2147483648 ∧ asI32 s = -1) := by
    rintro ⟨h1, h2⟩
    rw [hsval] at h2
    apply hex
    constructor
    · omega
    · revert h2; split <;> omega
  have hdiv : i32Div t (asI32 s) = .ok (t.tdiv (asI32 s)) := by
    unfold i32Div
    rw [if_neg hsne, if_neg hne1]
  have hmod : i32Mod t (asI32 s) = .ok (t.tmod (asI32 s)) := by
    unfold i32Mod
    rw [if_neg hsne, if_neg hne1]
  constructor
  · cases lte
    · simp only [next_initialized_tick, hdiv, hmod, bind, Except.bind, pure,
        Except.pure, Bool.false_eq_true, if_false]
      split <;> exact ⟨_, rfl⟩
    · simp [next_initialized_tick, hdiv, hmod, bind, Except.bind, pure,
        Except.pure]
  · intro hbm hlte
    subst hlte
    simp [next_initialized_tick, hdiv, hmod, bind, Except.bind, pure,
      Except.pure, searchUp_none_of_empty bm hbm]

/-- C9 amended, witnessed on the empty bitmap from tick 5 at spacing 1
searching upward: the call returns Ok(None). -/
theorem c9_termination_amended_witness :
    (0 : Nat) < 1 ∧ (1 : Nat) < 2 ^ 32 ∧ -(2 ^ 31) ≤ (5 : Int) ∧
    (5 : Int) < 2 ^ 31 ∧ ¬((5 : Int) = -(2 ^ 31) ∧ (1 : Nat) = 2 ^ 32 - 1) ∧
    ((∃ v, next_initialized_tick emptyBitmap 5 1 false = .ok v) ∧
     ((∀ i, emptyBitmap i = 0) → false = false →
        next_initialized_tick emptyBitmap 5 1 false = .ok none)) :=
  ⟨by decide, by decide, by decide, by decide, by decide,
   c9_termination_amended emptyBitmap 5 1 false (by decide) (by decide)
     (by decide) (by decide) (by decide)⟩

/-- The wall clock enters update_pool_after_swap only through the final
timestamp write: the call at any clock value is the call at clock 0 with the
timestamp overwritten. -/
theorem update_pool_after_swap_clock (w : Nat) (p : Pool) (a o : Nat)
    (z : Bool) :
    update_pool_after_swap w p a o z =
      (update_pool_after_swap 0 p a o z).map
        (fun q => { q with last_update_timestamp := w }) := by
  unfold update_pool_after_swap
  simp only [bind, Except.bind]
  rcases h1 : umul a p.fee with e | fm
  · simp [h1, Except.map]
  · rcases h2 : usub a (fm / 10000) with e | af
    · simp [h1, h2, Except.map]
    · cases z
      · rcases h3 : umul (fm / 10000) q96 with e | fg
        · simp [h1, h2, h3, Except.map]
        · rcases h4 : udiv fg p.liquidity with e | growth
          · simp [h1, h2, h3, h4, Except.map]
          · rcases h5 : uadd p.fee_growth_global1_x128 growth with e | g1
            · simp [h1, h2, h3, h4, h5, Except.map]
            · simp [h1, h2, h3, h4, h5, Except.map, pure, Except.pure]
      · rcases h3 : umul (fm / 10000) q96 with e | fg
        · simp [h1, h2, h3, Except.map]
        · rcases h4 : udiv fg p.liquidity with e | growth
          · simp [h1, h2, h3, h4, Except.map]
          · rcases h5 : uadd p.fee_growth_global0_x128 growth with e | g0
            · simp [h1, h2, h3, h4, h5, Except.map]
            · simp [h1, h2, h3, h4, h5, Except.map, pure, Except.pure]

/-- Reference value sqrtRatioAtTick(0), the next lower tick price for a pool
at tick 60 with spacing 60.  Its square is just under 2^256, so the
price-impact estimate divides by a nonzero price_ratio = floor(s^2 / 2^224)
and the swap reaches the commit path. -/
def ratioTick0 : Nat := (get_sqrt_ratio_at_tick 0).toOption.getD 0

/-- Pool at tick 60 positioned exactly at the tick-0 price with unit
liquidity and a 100 percent fee, dynamic fees disabled: a swap of 1 completes
with a zero-consumption step and reaches the state commit. -/
def c10pool : Pool :=
  { token_a := 1, token_b := 2, fee := 10000, tick_spacing := 60,
    max_liquidity_per_tick := 0, sqrt_price_x96 := ratioTick0, tick := 60,
    fee_growth_global0_x128 := 0, fee_growth_global1_x128 := 0,
    protocol_fees_token0 := 0, protocol_fees_token1 := 0, liquidity := 1,
    position_count := 0, last_update_timestamp := 77, unlocked := true,
    base_fee := 10000, min_fee := 1, max_fee := 100, last_fee_adjustment := 0,
    fee_adjustment_interval := 3600, dynamic_fee_enabled := false,
    last_oracle_update := 0, oracle_observation_count := 0,
    last_sequence_number := 0, last_position_update := 0,
    mev_config := defaultMevConfig }

/-- Two oracle observations at the pool price, enough for the TWAP gate. -/
def c10obs : List OracleObservation :=
  [ { timestamp := 0, price := ratioTick0, tick := 60, liquidity := 1 },
    { timestamp := 100, price := ratioTick0, tick := 60, liquidity := 1 } ]

/-- C10 counterexample.  Two runs of execute_swap from identical pool state,
buffers and arguments, differing only in the ambient wall clock (5 versus 9),
both complete successfully and return the same SwapResult, but the final pool
states are NOT bit-identical: last_update_timestamp is copied from the wall
clock by update_pool_after_swap. -/
theorem c10_wall_clock_counterexample :
    (execute_swap 0 false false 5 c10pool 1 true ratioTick0 [] [] [] c10obs
      100 1).result =
      (execute_swap 0 false false 9 c10pool 1 true ratioTick0 [] [] [] c10obs
        100 1).result ∧
    (execute_swap 0 false false 5 c10pool 1 true ratioTick0 [] [] [] c10obs
      100 1).result.isOk = true ∧
    (execute_swap 0 false false 5 c10pool 1 true ratioTick0 [] [] [] c10obs
      100 1).pool ≠
      (execute_swap 0 false false 9 c10pool 1 true ratioTick0 [] [] [] c10obs
        100 1).pool ∧
    (execute_swap 0 false false 5 c10pool 1 true ratioTick0 [] [] [] c10obs
      100 1).pool.last_update_timestamp = 5 ∧
    (execute_swap 0 false false 9 c10pool 1 true ratioTick0 [] [] [] c10obs
      100 1).pool.last_update_timestamp = 9 := by decide

/-- Normalize the one wall-clock-dependent field of an execute_swap output:
the pool timestamp is replaced by zero. -/
def SwapOut.clearTs (s : SwapOut) : SwapOut :=
  { s with pool := { s.pool with last_update_timestamp := 0 } }

/-- C10 amended.  With the ambient wall clock modelled as an explicit input
(and the outcomes of the deterministic f64 computations as parameters),
two runs of execute_swap from identical pool state, histories, oracle buffer
and arguments produce identical outputs up to the single wall-clock-derived
field: the returned SwapResult, all four buffers, and every pool field except
last_update_timestamp coincide. -/
theorem c10_determinism_amended :
    ∀ (iv : Nat) (vh vl : Bool) (w1 w2 : Nat) (pool : Pool) (aIn : Nat)
      (zfo : Bool) (lim : Nat) (ph vhist ih : List MarketDataPoint)
      (obs : List OracleObservation) (ts seq : Nat),
    (execute_swap iv vh vl w1 pool aIn zfo lim ph vhist ih obs ts
        seq).clearTs =
      (execute_swap iv vh vl w2 pool aIn zfo lim ph vhist ih obs ts
        seq).clearTs := by
  intro iv vh vl w1 w2 pool aIn zfo lim ph vhist ih obs ts seq
  unfold execute_swap
  by_cases hu : pool.unlocked
  case neg => simp [hu]
  case pos =>
  simp only [hu, not_true, if_false, Bool.not_true]
  rcases hcpi : calculate_price_impact iv pool aIn zfo with e | v
  · rfl
  · by_cases hvpl : validate_price_limit pool.sqrt_price_x96 lim zfo
    case neg => simp [hvpl]
    case pos =>
    simp only [hvpl, validate_transaction_ordering]
    cases hb : decide (seq = (pool.last_sequence_number + 1) % 2 ^ 64)
    · rfl
    · rcases hmev : validate_swap_mev_protection pool aIn zfo lim obs
          pool.mev_config with e | b
      · rfl
      · rcases b with _ | _
        · rfl
        · rcases hdf : update_dynamic_fees vh vl pool ph vhist ih ts
              pool.sqrt_price_x96 aIn v with e | tup
          · rfl
          · rcases tup with ⟨fa, p1, ph1, vh1, ih1⟩
            dsimp only
            rcases hloop : swap_loop zfo lim aIn aIn p1 0 0 with ⟨res, p2⟩
            rcases res with e | uo
            · rfl
            · rcases uo with ⟨u, o⟩
              dsimp only
              rw [update_pool_after_swap_clock w1 p2 u o zfo,
                update_pool_after_swap_clock w2 p2 u o zfo]
              rcases hupd : update_pool_after_swap 0 p2 u o zfo with e | q
              · simp only [hupd, Except.map]
              · simp only [hupd, Except.map]
                dsimp only [update_oracle_observations]
                simp only [eq_self_iff_true, not_true, if_false]
                split <;> rfl

end CLMM
